import Mathlib

/-!
Shallow embedding of the TaskFlow task-board application (app.js).

Conventions of the embedding:
* JS timestamps (ISO strings produced by new Date().toISOString()) are
  modelled as natural numbers; the ISO string order coincides with the
  numeric order of the instants, and each command takes the current
  instant as an explicit parameter.
* Calendar dates (the date-input value and the midnight-truncated
  "today" used by validation) are modelled as day numbers; the empty
  string in the due-date field is modelled as none.
* DOM form fields are modelled as a record of the raw string values the
  code reads (missing element and empty value both read as the empty
  string, matching the || "" defaults in saveTask).
* The pseudo-random column color and the current user are passed as
  explicit parameters.
-/

namespace TaskFlow

/-- Model of a member of the users collection. -/
structure User where
  id : String
  name : String
  email : String
  avatar : String
  role : String
  isOnline : Bool
  color : String
deriving DecidableEq

/-- Model of a board column. -/
structure Column where
  id : String
  name : String
  order : Nat
  color : String
deriving DecidableEq

/-- Model of a task record.  The optional dueDate ("" in the form) is
an Option; an absent description is the empty string, matching the ""
defaults the code writes. -/
structure Task where
  id : String
  title : String
  description : String
  status : String
  priority : String
  assigneeId : String
  dueDate : Option Nat
  tags : List String
  columnId : String
  createdAt : Nat
  updatedAt : Nat
deriving DecidableEq

/-- Model of an activity-feed entry. -/
structure Activity where
  id : String
  type : String
  message : String
  userId : String
  taskId : Option String
  timestamp : Nat
deriving DecidableEq

/-- The in-memory domain store: the four collections held on the
TaskFlowApp instance. -/
structure AppState where
  tasks : List Task
  columns : List Column
  users : List User
  activities : List Activity
deriving DecidableEq

/-- The identity of this.currentUser, as used by addActivity and the
activity messages. -/
structure CurrentUser where
  id : String
  name : String
deriving DecidableEq

/-- The filter criteria triple held in this.filters. -/
structure Filters where
  priority : String
  assignee : String
  search : String
deriving DecidableEq

/- ---------- string helpers mirroring the JS string operations ---------- -/

/-- Whether the first list is a prefix of the second. -/
def isPrefixList : List Char → List Char → Bool
  | [], _ => true
  | _ :: _, [] => false
  | a :: as, b :: bs => a == b && isPrefixList as bs

/-- Whether the pattern occurs as a contiguous substring of the text,
on character lists. -/
def hasSubstr : List Char → List Char → Bool
  | hay, needle =>
    if isPrefixList needle hay then true
    else
      match hay with
      | [] => false
      | _ :: t => hasSubstr t needle

/-- Model of JS String.prototype.includes: substring containment. -/
def strContains (hay needle : String) : Bool :=
  hasSubstr hay.data needle.data

/-- Model of JS String.prototype.toLowerCase. -/
def lowerStr (s : String) : String :=
  ⟨s.data.map Char.toLower⟩

/-- Whitespace recognised by the model of trim. -/
def isSpaceChar (c : Char) : Bool :=
  c == ' ' || c == '\t' || c == '\n' || c == '\r'

/-- Model of JS String.prototype.trim: drop whitespace from both ends. -/
def jsTrim (s : String) : String :=
  ⟨((s.data.dropWhile isSpaceChar).reverse.dropWhile isSpaceChar).reverse⟩

/-- Remove the first occurrence of the pattern from the list, leaving
the rest unchanged; the identity when the pattern does not occur. -/
def removeFirstOcc (pat : List Char) : List Char → List Char
  | [] => []
  | c :: cs =>
    if isPrefixList pat (c :: cs) then (c :: cs).drop pat.length
    else c :: removeFirstOcc pat cs

/-- Model of columnId.replace("col-", ""): JS replace with a string
pattern removes only the first occurrence. -/
def stripCol (s : String) : String :=
  ⟨removeFirstOcc "col-".data s.data⟩

/-- Model of JS "str".split(",") on character lists. -/
def splitComma : List Char → List (List Char)
  | [] => [[]]
  | c :: cs =>
    if c == ',' then [] :: splitComma cs
    else
      match splitComma cs with
      | [] => [[c]]
      | g :: gs => (c :: g) :: gs

/-- Model of the tag parsing in saveTask:
value.split(",").map(trim).filter(tag => tag). -/
def parseTags (s : String) : List String :=
  (((splitComma s.data).map (fun l => jsTrim ⟨l⟩)).filter (fun t => t != ""))

/-- Replace the first element satisfying the predicate by its image
under f; models the in-place mutation of the object returned by
Array.prototype.find. -/
def updateFirst {α : Type} (p : α → Bool) (f : α → α) : List α → List α
  | [] => []
  | x :: xs => if p x then f x :: xs else x :: updateFirst p f xs

/- ---------- activity log ---------- -/

/-- addActivity(type, message, taskId): builds the activity record with
id "activity-" + Date.now(), the current user's id and the timestamp,
and unshifts it onto the activities collection. -/
def addActivity (st : AppState) (u : CurrentUser) (type message : String)
    (taskId : Option String) (now : Nat) : AppState :=
  { st with activities :=
      { id := "activity-" ++ toString now
        type := type
        message := message
        userId := u.id
        taskId := taskId
        timestamp := now } :: st.activities }

/- ---------- task form, validation and saveTask ---------- -/

/-- The raw values saveTask reads from the task form.  taskId is the
form's data-task-id attribute (some id when editing).  Each string field
is the element's value, "" when blank or the element is missing; the
due-date value is a day number, none when the field is empty. -/
structure TaskForm where
  taskId : Option String
  title : String
  description : String
  priority : String
  assigneeId : String
  dueDate : Option Nat
  columnId : String
  tags : String
deriving DecidableEq

/-- The taskData object saveTask assembles from the form. -/
structure TaskData where
  title : String
  description : String
  priority : String
  assigneeId : String
  dueDate : Option Nat
  columnId : String
  tags : List String
  updatedAt : Nat
deriving DecidableEq

/-- Assembling taskData in saveTask: title and description trimmed,
priority defaulting to "medium" and columnId to "col-backlog" when the
field reads empty, tags split on commas, trimmed and blanks dropped,
updatedAt set to the current instant. -/
def buildTaskData (form : TaskForm) (now : Nat) : TaskData :=
  { title := jsTrim form.title
    description := jsTrim form.description
    priority := if form.priority == "" then "medium" else form.priority
    assigneeId := form.assigneeId
    dueDate := form.dueDate
    columnId := if form.columnId == "" then "col-backlog" else form.columnId
    tags := parseTags form.tags
    updatedAt := now }

/-- The field-keyed error map produced by validateTaskForm: each field
is none when that field passed, or some message. -/
structure TaskErrors where
  title : Option String
  description : Option String
  dueDate : Option String
  tags : Option String
deriving DecidableEq

/-- Object.keys(errors).length > 0: whether any field has an error. -/
def TaskErrors.hasErrors (e : TaskErrors) : Bool :=
  e.title.isSome || e.description.isSome || e.dueDate.isSome || e.tags.isSome

/-- validateTaskForm(taskData): title required and at most 100 chars,
description at most 500 chars when present, dueDate not before today
(midnight-truncated), at most 10 tags. -/
def validateTaskForm (d : TaskData) (today : Nat) : TaskErrors :=
  { title :=
      if d.title == "" then some "Task title is required"
      else if d.title.length > 100 then
        some "Task title must be 100 characters or less"
      else none
    description :=
      if d.description != "" && d.description.length > 500 then
        some "Description must be 500 characters or less"
      else none
    dueDate :=
      match d.dueDate with
      | some due => if due < today then some "Due date cannot be in the past" else none
      | none => none
    tags :=
      if d.tags.length > 10 then some "Maximum 10 tags allowed" else none }

/-- Object.assign(task, taskData): overwrite the seven form-derived
fields and updatedAt; id, status and createdAt are not in taskData and
are left as they were. -/
def applyTaskData (d : TaskData) (t : Task) : Task :=
  { t with
    title := d.title
    description := d.description
    priority := d.priority
    assigneeId := d.assigneeId
    dueDate := d.dueDate
    columnId := d.columnId
    tags := d.tags
    updatedAt := d.updatedAt }

/-- The new-task object built in the create branch of saveTask:
id "task-" + Date.now(), the spread of taskData, status derived from
columnId by replace("col-", ""), createdAt set to now. -/
def mkNewTask (d : TaskData) (now : Nat) : Task :=
  { id := "task-" ++ toString now
    title := d.title
    description := d.description
    status := stripCol d.columnId
    priority := d.priority
    assigneeId := d.assigneeId
    dueDate := d.dueDate
    tags := d.tags
    columnId := d.columnId
    createdAt := now
    updatedAt := d.updatedAt }

/-- saveTask(): assemble taskData, validate, and on failure show the
errors and return without mutating anything; otherwise either merge the
payload into the existing task (edit) or append a new task (create),
and record one activity.  Returns the resulting state together with the
error map shown to the caller. -/
def saveTask (st : AppState) (u : CurrentUser) (form : TaskForm)
    (now today : Nat) : AppState × TaskErrors :=
  let d := buildTaskData form now
  let errors := validateTaskForm d today
  if errors.hasErrors then (st, errors)
  else
    match form.taskId with
    | some tid =>
      match st.tasks.find? (fun t => t.id == tid) with
      | some _ =>
        let st2 := { st with tasks := updateFirst (fun t => t.id == tid) (applyTaskData d) st.tasks }
        (addActivity st2 u "task_updated"
          (u.name ++ " updated \"" ++ d.title ++ "\"") (some tid) now, errors)
      | none => (st, errors)
    | none =>
      let newTask := mkNewTask d now
      let st2 := { st with tasks := st.tasks ++ [newTask] }
      (addActivity st2 u "task_created"
        (u.name ++ " created \"" ++ newTask.title ++ "\"") (some newTask.id) now, errors)

/- ---------- moveTask, drag-and-drop, toggleTaskCompletion ---------- -/

/-- moveTask(taskId, newColumnId): when both the task and the target
column exist, set columnId, re-derive status, stamp updatedAt and
record a task_moved activity; otherwise do nothing.  Note there is no
check that the target differs from the current column. -/
def moveTask (st : AppState) (u : CurrentUser) (taskId newColumnId : String)
    (now : Nat) : AppState :=
  match st.tasks.find? (fun t => t.id == taskId),
        st.columns.find? (fun c => c.id == newColumnId) with
  | some task, some newColumn =>
    let oldColumnName :=
      match st.columns.find? (fun c => c.id == task.columnId) with
      | some c => c.name
      | none => "undefined"
    let tasks2 := updateFirst (fun t => t.id == taskId)
      (fun t => { t with
        columnId := newColumnId
        status := stripCol newColumnId
        updatedAt := now }) st.tasks
    let st2 := { st with tasks := tasks2 }
    addActivity st2 u "task_moved"
      (u.name ++ " moved \"" ++ task.title ++ "\" from " ++ oldColumnName ++
        " to " ++ newColumn.name)
      (some taskId) now
  | _, _ => st

/-- The drop handler installed by setupDragAndDrop: it calls moveTask
only when a task is being dragged and its columnId differs from the
target column. -/
def dropTask (st : AppState) (u : CurrentUser) (draggedTask : Option Task)
    (columnId : String) (now : Nat) : AppState :=
  match draggedTask with
  | some task =>
    if task.columnId != columnId then moveTask st u task.id columnId now else st
  | none => st

/-- toggleTaskCompletion(taskId): flip status between "done" and "todo"
with the paired columnId ("col-done" / "col-todo"), stamp updatedAt and
record an activity; a no-op when the task is not found.  The columns
collection is never consulted. -/
def toggleTaskCompletion (st : AppState) (u : CurrentUser) (taskId : String)
    (now : Nat) : AppState :=
  match st.tasks.find? (fun t => t.id == taskId) with
  | some task =>
    let newStatus := if task.status == "done" then "todo" else "done"
    let newColumnId := if newStatus == "done" then "col-done" else "col-todo"
    let tasks2 := updateFirst (fun t => t.id == taskId)
      (fun t => { t with
        status := newStatus
        columnId := newColumnId
        updatedAt := now }) st.tasks
    let st2 := { st with tasks := tasks2 }
    addActivity st2 u "task_updated"
      (u.name ++ " marked \"" ++ task.title ++ "\" as " ++ newStatus)
      (some taskId) now
  | none => st

/- ---------- addColumn ---------- -/

/-- addColumn(): prompt for a name (none models a cancelled prompt);
when the name is non-empty and non-blank after trimming, append one
column with order equal to the current column count and the given
pseudo-random color; otherwise do nothing. -/
def addColumn (st : AppState) (nameInput : Option String) (now : Nat)
    (color : String) : AppState :=
  match nameInput with
  | some name =>
    if name != "" && jsTrim name != "" then
      { st with columns := st.columns ++
          [{ id := "col-" ++ toString now
             name := jsTrim name
             order := st.columns.length
             color := color }] }
    else st
  | none => st

/- ---------- filtering ---------- -/

/-- The per-task predicate of getFilteredTasks: each criterion is empty
or satisfied; the search text is matched case-insensitively against the
title, and against the description when the description is non-empty. -/
def taskMatches (f : Filters) (t : Task) : Bool :=
  let matchesPriority := f.priority == "" || t.priority == f.priority
  let matchesAssignee := f.assignee == "" || t.assigneeId == f.assignee
  let matchesSearch := f.search == ""
    || strContains (lowerStr t.title) (lowerStr f.search)
    || (t.description != "" && strContains (lowerStr t.description) (lowerStr f.search))
  matchesPriority && matchesAssignee && matchesSearch

/-- getFilteredTasks(): filter the tasks collection by the criteria. -/
def getFilteredTasks (tasks : List Task) (f : Filters) : List Task :=
  tasks.filter (taskMatches f)

/-- The filter criteria as the specification words them: priority empty
or equal, assignee empty or equal, search empty or a case-insensitive
substring of the title or of the description. -/
def MatchesCriteria (f : Filters) (t : Task) : Prop :=
  (f.priority = "" ∨ t.priority = f.priority) ∧
  (f.assignee = "" ∨ t.assigneeId = f.assignee) ∧
  (f.search = "" ∨ strContains (lowerStr t.title) (lowerStr f.search) = true
    ∨ strContains (lowerStr t.description) (lowerStr f.search) = true)

/- ---------- export / import ---------- -/

/-- The JSON document written by exportData.  In importData each of the
four collection keys is used only when present and array-typed, which
the Option models; a missing or non-array key is none. -/
structure ExportDoc where
  tasks : Option (List Task)
  columns : Option (List Column)
  users : Option (List User)
  activities : Option (List Activity)
  exportDate : Nat
  version : String
deriving DecidableEq

/-- exportData(): serialize the four collections with an export date
and version "1.0".  JSON serialization of these plain records is
lossless, so the document holds the collections themselves. -/
def exportData (st : AppState) (now : Nat) : ExportDoc :=
  { tasks := some st.tasks
    columns := some st.columns
    users := some st.users
    activities := some st.activities
    exportDate := now
    version := "1.0" }

/-- importData(file): none models a JSON parse failure, which is caught
before any assignment; otherwise each of tasks, columns and users that
is present and array-typed replaces the corresponding collection
(activities are never imported). -/
def importData (st : AppState) (doc : Option ExportDoc) : AppState :=
  match doc with
  | none => st
  | some d =>
    let st1 := match d.tasks with
      | some ts => { st with tasks := ts }
      | none => st
    let st2 := match d.columns with
      | some cs => { st1 with columns := cs }
      | none => st1
    match d.users with
    | some us => { st2 with users := us }
    | none => st2

/- ---------- realtime bridge ---------- -/

/-- handleRealtimeUpdate(event): ignore events before initialization;
for the tasks key replace the whole tasks collection with the parsed
payload and show a "Real-time Update" notification, for the activities
key replace the activities collection; a parse failure (none) is caught
and shown as an "Update Error" notification, leaving the collections
untouched.  The second component is the title of the notification
shown, if any. -/
def handleRealtimeUpdate (st : AppState) (isInitialized : Bool) (key : String)
    (parsedTasks : Option (List Task)) (parsedActivities : Option (List Activity)) :
    AppState × Option String :=
  if !isInitialized then (st, none)
  else if key == "taskflow-tasks" then
    match parsedTasks with
    | some ts => ({ st with tasks := ts }, some "Real-time Update")
    | none => (st, some "Update Error")
  else if key == "taskflow-activities" then
    match parsedActivities with
    | some acts => ({ st with activities := acts }, none)
    | none => (st, some "Update Error")
  else (st, none)

/- ---------- concrete sample data for witnesses ---------- -/

/-- The current user of the sample states (the seed user user-1). -/
def sampleUser : CurrentUser :=
  { id := "user-1", name := "Deepanshu" }

/-- A task sitting in the To Do column, status in lockstep. -/
def sampleTask : Task :=
  { id := "task-1"
    title := "Welcome Task"
    description := "Welcome to TaskFlow!"
    status := "todo"
    priority := "medium"
    assigneeId := "user-1"
    dueDate := none
    tags := ["welcome"]
    columnId := "col-todo"
    createdAt := 0
    updatedAt := 0 }

/-- A small two-column board holding the sample task. -/
def sampleState : AppState :=
  { tasks := [sampleTask]
    columns := [{ id := "col-todo", name := "To Do", order := 0, color := "#3b82f6" },
                { id := "col-done", name := "Done", order := 1, color := "#10b981" }]
    users := []
    activities := [] }

/-- A three-column board with no tasks. -/
def threeColState : AppState :=
  { tasks := []
    columns := [{ id := "col-backlog", name := "Backlog", order := 0, color := "#64748b" },
                { id := "col-todo", name := "To Do", order := 1, color := "#3b82f6" },
                { id := "col-done", name := "Done", order := 2, color := "#10b981" }]
    users := []
    activities := [] }

/-- A task whose status is neither "done" nor "todo". -/
def reviewTask : Task :=
  { id := "task-9"
    title := "User Testing"
    description := ""
    status := "in-progress"
    priority := "medium"
    assigneeId := ""
    dueDate := none
    tags := []
    columnId := "col-in-progress"
    createdAt := 0
    updatedAt := 0 }

/-- A board whose only column is In Progress: neither "col-done" nor
"col-todo" exists. -/
def noDoneColState : AppState :=
  { tasks := [reviewTask]
    columns := [{ id := "col-in-progress", name := "In Progress", order := 0, color := "#f59e0b" }]
    users := []
    activities := [] }

/-- An edit payload moving the sample task to the Done column. -/
def editForm : TaskForm :=
  { taskId := some "task-1"
    title := "Welcome Task"
    description := "Welcome to TaskFlow!"
    priority := "medium"
    assigneeId := "user-1"
    dueDate := none
    columnId := "col-done"
    tags := "welcome" }

/-- A create payload whose title is 101 characters long. -/
def title101Form : TaskForm :=
  { taskId := none
    title := ⟨List.replicate 101 'a'⟩
    description := ""
    priority := ""
    assigneeId := ""
    dueDate := none
    columnId := ""
    tags := "" }

/-- A create payload whose title is 100 characters long. -/
def title100Form : TaskForm :=
  { taskId := none
    title := ⟨List.replicate 100 'a'⟩
    description := ""
    priority := ""
    assigneeId := ""
    dueDate := none
    columnId := ""
    tags := "" }

/- ---------- helper lemmas ---------- -/

theorem findq_decomp {α : Type} (p : α → Bool) (l : List α) (a : α)
    (h : l.find? p = some a) :
    ∃ l1 l2, l = l1 ++ a :: l2 ∧ (∀ x ∈ l1, p x = false) ∧ p a = true := by
  induction l with
  | nil => simp at h
  | cons x xs ih =>
    by_cases hp : p x = true
    · rw [List.find?_cons_of_pos _ hp] at h
      cases h
      exact ⟨[], xs, rfl, by simp, hp⟩
    · have hp' : p x = false := by simpa using hp
      rw [List.find?_cons_of_neg _ (by simp [hp'])] at h
      obtain ⟨l1, l2, hl, h1, ha⟩ := ih h
      refine ⟨x :: l1, l2, by rw [hl]; rfl, ?_, ha⟩
      intro y hy
      rcases List.mem_cons.mp hy with rfl | hy'
      · exact hp'
      · exact h1 y hy'

theorem updateFirst_append {α : Type} (p : α → Bool) (f : α → α) (l1 : List α)
    (a : α) (l2 : List α) (h1 : ∀ x ∈ l1, p x = false) (ha : p a = true) :
    updateFirst p f (l1 ++ a :: l2) = l1 ++ f a :: l2 := by
  induction l1 with
  | nil => simp [updateFirst, ha]
  | cons x xs ih =>
    have hx : p x = false := h1 x (List.mem_cons_self x xs)
    simp only [List.cons_append, updateFirst, hx, Bool.false_eq_true, if_false,
      List.cons.injEq, true_and]
    exact ih (fun y hy => h1 y (List.mem_cons_of_mem x hy))

theorem findq_append_none {α : Type} (p : α → Bool) (l1 l2 : List α)
    (h : ∀ x ∈ l1, p x = false) :
    (l1 ++ l2).find? p = l2.find? p := by
  induction l1 with
  | nil => rfl
  | cons x xs ih =>
    have hx : p x = false := h x (List.mem_cons_self x xs)
    rw [List.cons_append, List.find?_cons_of_neg _ (by simp [hx])]
    exact ih (fun y hy => h y (List.mem_cons_of_mem x hy))

theorem findq_updateFirst {α : Type} (p : α → Bool) (f : α → α) (l : List α)
    (a : α) (h : l.find? p = some a) (hf : p (f a) = true) :
    (updateFirst p f l).find? p = some (f a) := by
  obtain ⟨l1, l2, rfl, h1, ha⟩ := findq_decomp p l a h
  rw [updateFirst_append p f l1 a l2 h1 ha, findq_append_none p l1 _ h1,
    List.find?_cons_of_pos _ hf]

theorem lowerStr_empty : lowerStr "" = "" := rfl

theorem lowerStr_ne_empty {s : String} (h : s ≠ "") : lowerStr s ≠ "" := by
  intro hc
  have hd : s.data.map Char.toLower = [] := congrArg String.data hc
  exact h (String.ext (List.map_eq_nil_iff.mp hd))

theorem strContains_empty_hay {needle : String} (h : needle ≠ "") :
    strContains "" needle = false := by
  have hd : needle.data ≠ [] := by
    intro h0
    exact h (String.ext h0)
  rw [strContains]
  cases hnd : needle.data with
  | nil => exact absurd hnd hd
  | cons c cs => simp [hasSubstr, isPrefixList]

/-- The per-task predicate of the code agrees with the predicate as the
specification words it. -/
theorem taskMatches_iff (f : Filters) (t : Task) :
    taskMatches f t = true ↔ MatchesCriteria f t := by
  rw [taskMatches, MatchesCriteria]
  simp only [Bool.and_eq_true, Bool.or_eq_true, beq_iff_eq, bne_iff_ne, ne_eq]
  constructor
  · rintro ⟨⟨h1, h2⟩, h3⟩
    refine ⟨h1, h2, ?_⟩
    rcases h3 with (h | h) | ⟨_, h⟩
    · exact Or.inl h
    · exact Or.inr (Or.inl h)
    · exact Or.inr (Or.inr h)
  · rintro ⟨h1, h2, h3⟩
    refine ⟨⟨h1, h2⟩, ?_⟩
    rcases h3 with h | h | h
    · exact Or.inl (Or.inl h)
    · exact Or.inl (Or.inr h)
    · by_cases hs : f.search = ""
      · exact Or.inl (Or.inl hs)
      · by_cases hd : t.description = ""
        · rw [hd, lowerStr_empty] at h
          rw [strContains_empty_hay (lowerStr_ne_empty hs)] at h
          exact absurd h (by simp)
        · exact Or.inr ⟨hd, h⟩

/-- Claim C3: getFilteredTasks returns a subsequence of the tasks
collection, preserving its order (and, the embedding being pure, never
mutating it), containing exactly the tasks for which every filter
criterion is empty or satisfied: equal priority, equal assigneeId, and
the search text a case-insensitive substring of the title or of the
description. -/
theorem getFilteredTasks_subsequence_exact (tasks : List Task) (f : Filters) :
    (getFilteredTasks tasks f).Sublist tasks ∧
    ∀ t : Task, t ∈ getFilteredTasks tasks f ↔ t ∈ tasks ∧ MatchesCriteria f t := by
  constructor
  · exact List.filter_sublist tasks
  · intro t
    rw [getFilteredTasks, List.mem_filter, taskMatches_iff]

/-- Claim C6: importing the document produced by export reproduces the
tasks, columns and users collections exactly: same elements, same ids,
same field values, in the same order. -/
theorem import_export_roundtrip (st : AppState) (now : Nat) :
    (importData st (some (exportData st now))).tasks = st.tasks ∧
    (importData st (some (exportData st now))).columns = st.columns ∧
    (importData st (some (exportData st now))).users = st.users :=
  ⟨rfl, rfl, rfl⟩

/-- Claim C7: once initialized, a storage notification for the tasks
key (or the activities key) with a malformed payload is caught, surfaces
an Update Error notification, and leaves the in-memory collection
unchanged; a well-formed payload fully replaces the collection. -/
theorem handleRealtimeUpdate_sync_spec (st : AppState)
    (pt : Option (List Task)) (pa : Option (List Activity)) :
    (handleRealtimeUpdate st true "taskflow-tasks" none pa = (st, some "Update Error")) ∧
    (∀ ts, handleRealtimeUpdate st true "taskflow-tasks" (some ts) pa =
      ({ st with tasks := ts }, some "Real-time Update")) ∧
    (handleRealtimeUpdate st true "taskflow-activities" pt none = (st, some "Update Error")) ∧
    (∀ acts, handleRealtimeUpdate st true "taskflow-activities" pt (some acts) =
      ({ st with activities := acts }, none)) := by
  refine ⟨rfl, fun ts => rfl, ?_, fun acts => ?_⟩ <;>
    simp [handleRealtimeUpdate]

/-- Claim C8: addColumn with a name that is non-empty after trimming
appends exactly one column, whose order field is the column count
before the call; a name blank after trimming (or a cancelled prompt) is
rejected silently, leaving the state unchanged. -/
theorem addColumn_spec (st : AppState) (now : Nat) (color : String) :
    (∀ name : String, jsTrim name ≠ "" →
      (addColumn st (some name) now color).columns =
        st.columns ++ [{ id := "col-" ++ toString now, name := jsTrim name,
                         order := st.columns.length, color := color }]) ∧
    (∀ name : String, jsTrim name = "" → addColumn st (some name) now color = st) ∧
    (addColumn st none now color = st) := by
  refine ⟨?_, ?_, rfl⟩
  · intro name h
    have hne : name ≠ "" := by
      intro h0
      rw [h0] at h
      exact h rfl
    have hc : (name != "" && jsTrim name != "") = true := by
      simp [bne_iff_ne, hne, h]
    simp [addColumn, hc]
  · intro name h
    have hc : (name != "" && jsTrim name != "") = false := by
      simp [h]
    simp [addColumn, hc]

/-- Witness for claim C8: on the three-column seed board a column named
Blocked gets order 3; a blank name leaves the board unchanged. -/
theorem addColumn_spec_witness :
    (addColumn threeColState (some "Blocked") 99 "#123456").columns =
      threeColState.columns ++
        [{ id := "col-99", name := "Blocked", order := 3, color := "#123456" }] ∧
    addColumn threeColState (some "   ") 99 "#123456" = threeColState := by
  constructor
  · rw [(addColumn_spec threeColState 99 "#123456").1 "Blocked" (by decide)]
    decide
  · exact (addColumn_spec threeColState 99 "#123456").2.1 "   " (by decide)

theorem saveTask_invalid_eq (st : AppState) (u : CurrentUser) (form : TaskForm)
    (now today : Nat)
    (hval : (validateTaskForm (buildTaskData form now) today).hasErrors = true) :
    saveTask st u form now today = (st, validateTaskForm (buildTaskData form now) today) := by
  simp only [saveTask, hval, if_true]

theorem saveTask_edit_eq (st : AppState) (u : CurrentUser) (form : TaskForm)
    (now today : Nat) (tid : String) (t0 : Task)
    (hid : form.taskId = some tid)
    (hfind : st.tasks.find? (fun t => t.id == tid) = some t0)
    (hval : (validateTaskForm (buildTaskData form now) today).hasErrors = false) :
    saveTask st u form now today =
      (addActivity
        { st with tasks := (updateFirst (fun t => t.id == tid)
            (applyTaskData (buildTaskData form now)) st.tasks) }
        u "task_updated"
        (u.name ++ " updated \"" ++ (buildTaskData form now).title ++ "\"")
        (some tid) now,
       validateTaskForm (buildTaskData form now) today) := by
  simp only [saveTask, hval, Bool.false_eq_true, if_false, hid, hfind]

theorem saveTask_create_eq (st : AppState) (u : CurrentUser) (form : TaskForm)
    (now today : Nat)
    (hid : form.taskId = none)
    (hval : (validateTaskForm (buildTaskData form now) today).hasErrors = false) :
    saveTask st u form now today =
      (addActivity { st with tasks := st.tasks ++ [mkNewTask (buildTaskData form now) now] }
        u "task_created"
        (u.name ++ " created \"" ++ (mkNewTask (buildTaskData form now) now).title ++ "\"")
        (some (mkNewTask (buildTaskData form now) now).id) now,
       validateTaskForm (buildTaskData form now) today) := by
  simp only [saveTask, hval, Bool.false_eq_true, if_false, hid]

/-- Claim C9: toggleTaskCompletion sends a task with any status other
than "done" to status "done" and columnId "col-done", and a task with
status "done" to status "todo" and columnId "col-todo"; it never
consults the columns collection, which it leaves unchanged, so the
resulting columnId may reference no existing column. -/
theorem toggleTaskCompletion_spec (st : AppState) (u : CurrentUser) (tid : String)
    (now : Nat) (t : Task)
    (h : st.tasks.find? (fun x => x.id == tid) = some t) :
    (t.status ≠ "done" →
      (toggleTaskCompletion st u tid now).tasks.find? (fun x => x.id == tid) =
        some { t with status := "done", columnId := "col-done", updatedAt := now }) ∧
    (t.status = "done" →
      (toggleTaskCompletion st u tid now).tasks.find? (fun x => x.id == tid) =
        some { t with status := "todo", columnId := "col-todo", updatedAt := now }) ∧
    (∀ cs : List Column,
      (toggleTaskCompletion { st with columns := cs } u tid now).tasks =
        (toggleTaskCompletion st u tid now).tasks) ∧
    (toggleTaskCompletion st u tid now).columns = st.columns := by
  have hpt := List.find?_some h
  refine ⟨?_, ?_, ?_, ?_⟩
  · intro hne
    have hs : (t.status == "done") = false := by simp [hne]
    simp only [toggleTaskCompletion, h, hs, Bool.false_eq_true, if_false, addActivity]
    exact findq_updateFirst _ _ _ _ h hpt
  · intro heq
    have hs : (t.status == "done") = true := by simp [heq]
    simp only [toggleTaskCompletion, h, hs, if_true, addActivity]
    exact findq_updateFirst _ _ _ _ h hpt
  · intro cs
    simp only [toggleTaskCompletion, h, addActivity]
  · simp only [toggleTaskCompletion, h, addActivity]

/-- Witness for claim C9: toggling an in-progress task on a board with
no Done column still yields columnId "col-done", which references no
existing column. -/
theorem toggleTaskCompletion_spec_witness :
    (toggleTaskCompletion noDoneColState sampleUser "task-9" 4).tasks.find?
        (fun x => x.id == "task-9") =
      some { reviewTask with status := "done", columnId := "col-done", updatedAt := 4 } ∧
    ((toggleTaskCompletion noDoneColState sampleUser "task-9" 4).columns.map
        Column.id).contains "col-done" = false := by
  refine ⟨(toggleTaskCompletion_spec noDoneColState sampleUser "task-9" 4 reviewTask
    (by decide)).1 (by decide), by decide⟩

/-- Counterexample to claim C2: calling moveTask with the task's
current column is not a no-op — an activity is appended and updatedAt
changes, because the differs-from-current check lives in the drop
handler, not in moveTask. -/
theorem moveTask_same_column_not_noop :
    (moveTask sampleState sampleUser "task-1" "col-todo" 5).activities.length =
      sampleState.activities.length + 1 ∧
    (moveTask sampleState sampleUser "task-1" "col-todo" 5).tasks =
      [{ sampleTask with updatedAt := 5 }] ∧
    sampleTask.updatedAt ≠ 5 := by decide

/-- Claim C2 (amended): dropping a task onto its current column is a
no-op because the drag-and-drop drop handler only calls moveTask when
the target column differs from the dragged task's columnId; a direct
moveTask call with the current column, by contrast, appends a
task_moved activity and stamps updatedAt. -/
theorem dropTask_same_column_noop (st : AppState) (u : CurrentUser) (t : Task)
    (cid : String) (now : Nat) (hsame : t.columnId = cid) :
    dropTask st u (some t) cid now = st ∧
    (∀ c t0, st.columns.find? (fun x => x.id == cid) = some c →
      st.tasks.find? (fun x => x.id == t.id) = some t0 →
      (moveTask st u t.id cid now).activities.length = st.activities.length + 1 ∧
      (moveTask st u t.id cid now).tasks.find? (fun x => x.id == t.id) =
        some { t0 with columnId := cid, status := stripCol cid, updatedAt := now }) := by
  constructor
  · simp [dropTask, hsame]
  · intro c t0 hcol hfind
    have hpt := List.find?_some hfind
    constructor
    · simp only [moveTask, hfind, hcol, addActivity, List.length_cons]
    · simp only [moveTask, hfind, hcol, addActivity]
      exact findq_updateFirst _ _ _ _ hfind hpt

/-- Witness for claim C2 (amended): dropping the sample task onto its
own column leaves the state untouched, while a direct moveTask call
with that same column appends an activity and restamps updatedAt. -/
theorem dropTask_same_column_noop_witness :
    dropTask sampleState sampleUser (some sampleTask) "col-todo" 5 = sampleState ∧
    (moveTask sampleState sampleUser "task-1" "col-todo" 5).activities.length =
      sampleState.activities.length + 1 ∧
    (moveTask sampleState sampleUser "task-1" "col-todo" 5).tasks.find?
        (fun x => x.id == "task-1") =
      some { sampleTask with
        columnId := "col-todo"
        status := stripCol "col-todo"
        updatedAt := 5 } := by
  have h := dropTask_same_column_noop sampleState sampleUser sampleTask "col-todo" 5 rfl
  have h2 := h.2 { id := "col-todo", name := "To Do", order := 0, color := "#3b82f6" }
    sampleTask (by decide) (by decide)
  exact ⟨h.1, h2.1, h2.2⟩

/-- Claim C1 is contradicted by the code: the edit branch of saveTask
overwrites columnId via Object.assign with a payload that carries no
status field, so when an edit changes the column the stale status
survives and the status-columnId lockstep invariant is broken (every
other command does keep the two in lockstep). -/
theorem saveTask_edit_breaks_status_lockstep :
    (saveTask sampleState sampleUser editForm 7 0).1.tasks =
      [{ sampleTask with columnId := "col-done", updatedAt := 7 }] ∧
    (saveTask sampleState sampleUser editForm 7 0).1.tasks.all
      (fun t => t.status == stripCol t.columnId) = false := by decide

/-- Validation does not look at the updatedAt stamp, so it is
independent of the instant the payload was assembled at. -/
theorem validateTaskForm_time_indep (form : TaskForm) (n1 n2 today : Nat) :
    validateTaskForm (buildTaskData form n1) today =
      validateTaskForm (buildTaskData form n2) today := rfl

/-- Claim C10: editing an existing task through saveTask leaves its id,
status and createdAt unchanged (the record update below touches neither)
and leaves every other task, the columns and the users unchanged, but
unconditionally overwrites all seven form-derived fields with the
payload values, so optional fields absent from the form are overwritten
with the empty string / empty list defaults. -/
theorem saveTask_edit_frame (st : AppState) (u : CurrentUser) (form : TaskForm)
    (now today : Nat) (tid : String) (t0 : Task)
    (hid : form.taskId = some tid)
    (hfind : st.tasks.find? (fun t => t.id == tid) = some t0)
    (hval : (validateTaskForm (buildTaskData form now) today).hasErrors = false) :
    ∃ l1 l2,
      st.tasks = l1 ++ t0 :: l2 ∧ (∀ x ∈ l1, (x.id == tid) = false) ∧
      (saveTask st u form now today).1.tasks =
        l1 ++ { t0 with
          title := jsTrim form.title
          description := jsTrim form.description
          priority := (if form.priority == "" then "medium" else form.priority)
          assigneeId := form.assigneeId
          dueDate := form.dueDate
          columnId := (if form.columnId == "" then "col-backlog" else form.columnId)
          tags := parseTags form.tags
          updatedAt := now } :: l2 ∧
      (saveTask st u form now today).1.columns = st.columns ∧
      (saveTask st u form now today).1.users = st.users := by
  obtain ⟨l1, l2, hl, h1, hp⟩ := findq_decomp _ st.tasks t0 hfind
  refine ⟨l1, l2, hl, h1, ?_, ?_, ?_⟩
  · rw [saveTask_edit_eq st u form now today tid t0 hid hfind hval]
    show updateFirst (fun t => t.id == tid) (applyTaskData (buildTaskData form now)) st.tasks = _
    rw [hl, updateFirst_append _ _ l1 t0 l2 h1 hp]
    rfl
  · rw [saveTask_edit_eq st u form now today tid t0 hid hfind hval]
    rfl
  · rw [saveTask_edit_eq st u form now today tid t0 hid hfind hval]
    rfl

/-- Witness for claim C10: editing the sample task with a payload that
moves it to the Done column rewrites the seven fields and nothing
else. -/
theorem saveTask_edit_frame_witness :
    ∃ l1 l2,
      sampleState.tasks = l1 ++ sampleTask :: l2 ∧
      (∀ x ∈ l1, (x.id == "task-1") = false) ∧
      (saveTask sampleState sampleUser editForm 7 0).1.tasks =
        l1 ++ { sampleTask with
          title := jsTrim editForm.title
          description := jsTrim editForm.description
          priority := (if editForm.priority == "" then "medium" else editForm.priority)
          assigneeId := editForm.assigneeId
          dueDate := editForm.dueDate
          columnId := (if editForm.columnId == "" then "col-backlog" else editForm.columnId)
          tags := parseTags editForm.tags
          updatedAt := 7 } :: l2 ∧
      (saveTask sampleState sampleUser editForm 7 0).1.columns = sampleState.columns ∧
      (saveTask sampleState sampleUser editForm 7 0).1.users = sampleState.users :=
  saveTask_edit_frame sampleState sampleUser editForm 7 0 "task-1" sampleTask rfl
    (by decide) (by decide)

/-- Claim C4: applying the same updateTask payload twice yields the
same final task state as applying it once, except updatedAt, which is
restamped to the later instant and hence strictly increases whenever
the clock does; and in general every task mutation (updateTask,
moveTask, toggleTaskCompletion) restamps updatedAt of the mutated task
to the current instant, so updatedAt strictly increases under a
strictly increasing clock. -/
theorem updateTask_idempotent_mod_updatedAt (st : AppState) (u : CurrentUser)
    (form : TaskForm) (now1 now2 today : Nat) (tid : String) (t0 : Task)
    (hid : form.taskId = some tid)
    (hfind : st.tasks.find? (fun t => t.id == tid) = some t0)
    (hval : (validateTaskForm (buildTaskData form now1) today).hasErrors = false)
    (hlt : now1 < now2) :
    (∃ l1 l2 t1,
      (saveTask st u form now1 today).1.tasks = l1 ++ t1 :: l2 ∧
      (saveTask (saveTask st u form now1 today).1 u form now2 today).1.tasks =
        l1 ++ { t1 with updatedAt := now2 } :: l2 ∧
      (∀ x ∈ l1, (x.id == tid) = false) ∧
      t1.updatedAt = now1 ∧ t1.updatedAt < now2) ∧
    (∀ cid c n, st.columns.find? (fun x => x.id == cid) = some c →
      t0.updatedAt < n →
      ∃ tm, (moveTask st u tid cid n).tasks.find? (fun x => x.id == tid) = some tm ∧
        t0.updatedAt < tm.updatedAt) ∧
    (∀ n, t0.updatedAt < n →
      ∃ tt, (toggleTaskCompletion st u tid n).tasks.find? (fun x => x.id == tid) = some tt ∧
        t0.updatedAt < tt.updatedAt) := by
  have hpt := List.find?_some hfind
  have hval2 : (validateTaskForm (buildTaskData form now2) today).hasErrors = false := by
    rw [validateTaskForm_time_indep form now2 now1 today]
    exact hval
  have hst1 : (saveTask st u form now1 today).1.tasks =
      updateFirst (fun t => t.id == tid) (applyTaskData (buildTaskData form now1)) st.tasks := by
    rw [saveTask_edit_eq st u form now1 today tid t0 hid hfind hval]
    rfl
  have hfind1 : (saveTask st u form now1 today).1.tasks.find? (fun t => t.id == tid) =
      some (applyTaskData (buildTaskData form now1) t0) := by
    rw [hst1]
    exact findq_updateFirst _ _ _ _ hfind hpt
  have hst2 : (saveTask (saveTask st u form now1 today).1 u form now2 today).1.tasks =
      updateFirst (fun t => t.id == tid) (applyTaskData (buildTaskData form now2))
        (saveTask st u form now1 today).1.tasks := by
    rw [saveTask_edit_eq (saveTask st u form now1 today).1 u form now2 today tid
      (applyTaskData (buildTaskData form now1) t0) hid hfind1 hval2]
    rfl
  obtain ⟨l1, l2, hl, h1, hp1⟩ := findq_decomp _ _ _ hfind1
  refine ⟨⟨l1, l2, applyTaskData (buildTaskData form now1) t0, hl, ?_, h1, rfl, hlt⟩, ?_, ?_⟩
  · rw [hst2, hl, updateFirst_append _ _ l1 _ l2 h1 hp1]
    rfl
  · intro cid c n hcol hn
    refine ⟨{ t0 with columnId := cid, status := stripCol cid, updatedAt := n }, ?_, hn⟩
    simp only [moveTask, hfind, hcol, addActivity]
    exact findq_updateFirst _ _ _ _ hfind hpt
  · intro n hn
    refine ⟨{ t0 with
      status := (if t0.status == "done" then "todo" else "done")
      columnId := (if (if t0.status == "done" then "todo" else "done") == "done"
        then "col-done" else "col-todo")
      updatedAt := n }, ?_, hn⟩
    simp only [toggleTaskCompletion, hfind, addActivity]
    exact findq_updateFirst _ _ _ _ hfind hpt

/-- Witness for claim C4: re-saving the sample edit payload at instants
5 and then 9 leaves everything equal except updatedAt. -/
theorem updateTask_idempotent_mod_updatedAt_witness :
    (∃ l1 l2 t1,
      (saveTask sampleState sampleUser editForm 5 0).1.tasks = l1 ++ t1 :: l2 ∧
      (saveTask (saveTask sampleState sampleUser editForm 5 0).1 sampleUser editForm 9 0).1.tasks =
        l1 ++ { t1 with updatedAt := 9 } :: l2 ∧
      (∀ x ∈ l1, (x.id == "task-1") = false) ∧
      t1.updatedAt = 5 ∧ t1.updatedAt < 9) ∧
    (∀ cid c n,
      sampleState.columns.find? (fun x => x.id == cid) = some c →
      sampleTask.updatedAt < n →
      ∃ tm, (moveTask sampleState sampleUser "task-1" cid n).tasks.find?
          (fun x => x.id == "task-1") = some tm ∧
        sampleTask.updatedAt < tm.updatedAt) ∧
    (∀ n, sampleTask.updatedAt < n →
      ∃ tt, (toggleTaskCompletion sampleState sampleUser "task-1" n).tasks.find?
          (fun x => x.id == "task-1") = some tt ∧
        sampleTask.updatedAt < tt.updatedAt) :=
  updateTask_idempotent_mod_updatedAt sampleState sampleUser editForm 5 9 0 "task-1"
    sampleTask rfl (by decide) (by decide) (by decide)

/-- Claim C5: a title longer than 100 characters makes saveTask return
the title-field validation error and leave the state untouched; in
general any validation failure returns the field-keyed error map with
no mutation at all; and a creation payload with a 100-character title
(and otherwise valid fields) is accepted and appends exactly the new
task. -/
theorem createTask_validation_boundary (st : AppState) (u : CurrentUser)
    (form : TaskForm) (now today : Nat) :
    ((jsTrim form.title).length > 100 →
      (saveTask st u form now today).2.title =
        some "Task title must be 100 characters or less" ∧
      (saveTask st u form now today).1 = st) ∧
    ((validateTaskForm (buildTaskData form now) today).hasErrors = true →
      saveTask st u form now today = (st, validateTaskForm (buildTaskData form now) today)) ∧
    (form.taskId = none → (jsTrim form.title).length = 100 →
      (jsTrim form.description).length ≤ 500 →
      (∀ dd, form.dueDate = some dd → today ≤ dd) →
      (parseTags form.tags).length ≤ 10 →
      (saveTask st u form now today).1.tasks =
        st.tasks ++ [mkNewTask (buildTaskData form now) now] ∧
      (saveTask st u form now today).2.hasErrors = false) := by
  refine ⟨?_, ?_, ?_⟩
  · intro h101
    have hne : (jsTrim form.title == "") = false := by
      rw [beq_eq_false_iff_ne]
      intro h0
      rw [h0] at h101
      exact absurd h101 (by decide)
    have htitle : (validateTaskForm (buildTaskData form now) today).title =
        some "Task title must be 100 characters or less" := by
      simp [validateTaskForm, buildTaskData, hne, h101]
    have herr : (validateTaskForm (buildTaskData form now) today).hasErrors = true := by
      simp [TaskErrors.hasErrors, htitle]
    rw [saveTask_invalid_eq st u form now today herr]
    exact ⟨htitle, rfl⟩
  · intro herr
    exact saveTask_invalid_eq st u form now today herr
  · intro hidn h100 hdesc hdue htags
    have hne : (jsTrim form.title == "") = false := by
      rw [beq_eq_false_iff_ne]
      intro h0
      rw [h0] at h100
      exact absurd h100 (by decide)
    have ht : (validateTaskForm (buildTaskData form now) today).title = none := by
      have hle : ¬ (jsTrim form.title).length > 100 := by omega
      simp [validateTaskForm, buildTaskData, hne, hle]
    have hd : (validateTaskForm (buildTaskData form now) today).description = none := by
      have hle : ¬ (jsTrim form.description).length > 500 := by omega
      simp [validateTaskForm, buildTaskData, hle]
    have hdd : (validateTaskForm (buildTaskData form now) today).dueDate = none := by
      cases hfd : form.dueDate with
      | none => simp [validateTaskForm, buildTaskData, hfd]
      | some dd =>
        have hge := hdue dd hfd
        have hnl : ¬ dd < today := by omega
        simp [validateTaskForm, buildTaskData, hfd, hnl]
    have htg : (validateTaskForm (buildTaskData form now) today).tags = none := by
      have hle : ¬ (parseTags form.tags).length > 10 := by omega
      simp [validateTaskForm, buildTaskData, hle]
    have herr : (validateTaskForm (buildTaskData form now) today).hasErrors = false := by
      simp [TaskErrors.hasErrors, ht, hd, hdd, htg]
    rw [saveTask_create_eq st u form now today hidn herr]
    exact ⟨rfl, herr⟩

/-- Witness for claim C5: the 101-character title is rejected with the
title error and no state change; the 100-character title is accepted
and appends the new task. -/
theorem createTask_validation_boundary_witness :
    ((saveTask sampleState sampleUser title101Form 3 0).2.title =
        some "Task title must be 100 characters or less" ∧
      (saveTask sampleState sampleUser title101Form 3 0).1 = sampleState) ∧
    ((saveTask sampleState sampleUser title100Form 3 0).1.tasks =
        sampleState.tasks ++ [mkNewTask (buildTaskData title100Form 3) 3] ∧
      (saveTask sampleState sampleUser title100Form 3 0).2.hasErrors = false) := by
  constructor
  · exact (createTask_validation_boundary sampleState sampleUser title101Form 3 0).1
      (by decide)
  · exact (createTask_validation_boundary sampleState sampleUser title100Form 3 0).2.2 rfl
      (by decide) (by decide) (by intro dd h; cases h) (by decide)

end TaskFlow
